import Mathlib

/-!
Shallow embedding of the pull-request API client (`src/api/pulls.rs`).

The file models the `PullRequestHandler` type and its operations faithfully
from the source. Collaborators that live outside the given source file
(the shared `Octocrab` client context, the `reqwest` request type, the error
classifier `map_github_error`, the decoder `FromResponse`, and the media-type
formatting helper) are modelled from the specification, each marked by a
doc comment starting with `Modelled from the spec:`.

Asynchronous network execution is represented by an explicit transport
parameter `exec : Request → Except Error Response`, so every operation is a
pure function of the handler state, the transport's behaviour, and its
arguments.
-/

/-- Modelled from the spec: the HTTP method of a request, fixed by the calling
operation. -/
inductive Method where
  | GET
  | POST
  | PUT
  | PATCH
deriving DecidableEq, Repr

/-- Modelled from the spec: JSON values, as far as the claims need them
(string arrays and string-keyed objects for request bodies). -/
inductive Json where
  | str : String → Json
  | arr : List Json → Json
  | obj : List (String × Json) → Json

/-- Modelled from the spec: an association map of string keys to JSON values,
standing in for `serde_json::Map`. -/
abbrev JsonMap := List (String × Json)

/-- Modelled from the spec: `serde_json::Map::insert` — replace the value of an
existing key, otherwise add the binding. -/
def JsonMap.insert : JsonMap → String → Json → JsonMap
  | [], k, v => [(k, v)]
  | (k', v') :: rest, k, v =>
      if k = k' then (k, v) :: rest else (k', v') :: JsonMap.insert rest k v

/-- Modelled from the spec: an assembled HTTP request — method and absolute
URL, optional query parameters, optional JSON body, and accumulated headers
(standing in for `reqwest::RequestBuilder` state). -/
structure Request where
  method : Method
  url : String
  query : Option String
  body : Option Json
  headers : List (String × String)

/-- Modelled from the spec: a fresh request for a method and URL, with no
query parameters, no body and no headers (`client.get(url)` and friends). -/
def Request.new (method : Method) (url : String) : Request :=
  ⟨method, url, none, none, []⟩

/-- Modelled from the spec: `.query(parameters)` — attach query parameters. -/
def Request.withQuery (r : Request) (q : String) : Request :=
  { r with query := some q }

/-- Modelled from the spec: `.json(body)` — attach a JSON body. -/
def Request.withJson (r : Request) (b : Json) : Request :=
  { r with body := some b }

/-- Modelled from the spec: `.header(name, value)` — append a header. -/
def Request.withHeader (r : Request) (name value : String) : Request :=
  { r with headers := r.headers ++ [(name, value)] }

/-- Modelled from the spec: the name of the content-negotiation header
(`reqwest::header::ACCEPT`). -/
def ACCEPT : String := "accept"

/-- Modelled from the spec: the structured-error taxonomy — transport failure,
remote-service-reported failure (status and message), decode failure, and
malformed-route failure. -/
inductive Error where
  | http : String → Error
  | github : Nat → String → Error
  | jsonDecode : String → Error
  | url : String → Error
deriving DecidableEq, Repr

/-- Modelled from the spec: a raw transport response — status code and raw
text body. -/
structure Response where
  status : Nat
  body : String
deriving DecidableEq, Repr

/-- Modelled from the spec: the transport collaborator,
`execute(request) → response-or-transport-error`. -/
abbrev Transport := Request → Except Error Response

/-- Modelled from the spec: the typed decoder collaborator — converts a
response body into the target shape, or fails. -/
abbrev Decoder (R : Type) := String → Option R

/-- Modelled from the spec: the error classifier `map_github_error` — a
non-success (non-2xx) status becomes a structured remote-service error
carrying status and body; a success status passes the response through. -/
def map_github_error (response : Response) : Except Error Response :=
  if 200 ≤ response.status ∧ response.status ≤ 299 then
    .ok response
  else
    .error (.github response.status response.body)

/-- Modelled from the spec: `FromResponse::from_response` — decode the body of
a (already classified as successful) response into the target shape, or
surface a decode failure, never a silent default. -/
def from_response {R : Type} (dec : Decoder R) (response : Response) : Except Error R :=
  match dec response.body with
  | some v => .ok v
  | none => .error (.jsonDecode response.body)

/-- Modelled from the spec: the shared client context (base-URL collaborator
plus transport). -/
structure Octocrab where
  baseUrl : String
deriving DecidableEq, Repr

/-- Modelled from the spec: resolve a relative route to an absolute request
target. -/
def Octocrab.absolute_url (crab : Octocrab) (route : String) : String :=
  crab.baseUrl ++ route

/-- Modelled from the spec: the request assembled by the client's raw `_get` —
a GET with optional query parameters and no further processing. -/
def Octocrab.get_request (_crab : Octocrab) (url : String) (parameters : Option String) : Request :=
  let request := Request.new .GET url
  match parameters with
  | some p => request.withQuery p
  | none => request

/-- Modelled from the spec: the client's raw `_get` — build the request,
execute it, and deliver the raw response with no pre/post-processing. -/
def Octocrab._get (crab : Octocrab) (exec : Transport) (url : String)
    (parameters : Option String) : Except Error Response :=
  exec (crab.get_request url parameters)

/-- Modelled from the spec: the request assembled by the client's raw `_put` —
a PUT with an optional JSON body and no further processing. -/
def Octocrab.put_request (_crab : Octocrab) (url : String) (body : Option Json) : Request :=
  let request := Request.new .PUT url
  match body with
  | some b => request.withJson b
  | none => request

/-- Modelled from the spec: the client's raw `_put` — build the request,
execute it, and deliver the raw response with no pre/post-processing. -/
def Octocrab._put (crab : Octocrab) (exec : Transport) (url : String)
    (body : Option Json) : Except Error Response :=
  exec (crab.put_request url body)

/-- Modelled from the spec: the request assembled by the client's raw `_post` —
a POST with an optional JSON body and no further processing. -/
def Octocrab.post_request (_crab : Octocrab) (url : String) (body : Option Json) : Request :=
  let request := Request.new .POST url
  match body with
  | some b => request.withJson b
  | none => request

/-- Modelled from the spec: the client's raw `_post`. -/
def Octocrab._post (crab : Octocrab) (exec : Transport) (url : String)
    (body : Option Json) : Except Error Response :=
  exec (crab.post_request url body)

/-- Modelled from the spec: the client's generic `post` — resolve the route,
send the body, classify errors, then decode the successful response. -/
def Octocrab.post {R : Type} (crab : Octocrab) (exec : Transport) (dec : Decoder R)
    (route : String) (body : Option Json) : Except Error R :=
  match crab._post exec (crab.absolute_url route) body with
  | .error e => .error e
  | .ok response =>
    match map_github_error response with
    | .error e => .error e
    | .ok response => from_response dec response

/-- Modelled from the spec: the content-negotiation variant — an enumerated
tag that maps deterministically to a format string. -/
inductive MediaType where
  | raw
  | text
  | html
  | full
deriving DecidableEq, Repr

/-- Modelled from the spec: the `Display` string of a variant tag. -/
def MediaType.to_string : MediaType → String
  | .raw => "raw"
  | .text => "text"
  | .html => "html"
  | .full => "full"

/-- Modelled from the spec: `format_media_type` — the deterministic
content-negotiation format string derived from a variant tag. -/
def format_media_type (media_type : String) : String :=
  "application/vnd.github.v3." ++ media_type ++ "+json"

/-- `PullRequestHandler` (src/api/pulls.rs, lines 18-23): a client to the
pull-request API, scoped to one owner/repo pair, with an optional
content-negotiation media type. -/
structure PullRequestHandler where
  crab : Octocrab
  owner : String
  repo : String
  media_type : Option MediaType
deriving DecidableEq, Repr

/-- `PullRequestHandler::new` (lines 26-33). -/
def PullRequestHandler.new (crab : Octocrab) (owner repo : String) : PullRequestHandler :=
  ⟨crab, owner, repo, none⟩

/-- `PullRequestHandler::media_type` (lines 46-49): the fluent setter for the
media type (named `mediaType` here because the field keeps the source name). -/
def PullRequestHandler.mediaType (s : PullRequestHandler) (media_type : MediaType) :
    PullRequestHandler :=
  { s with media_type := some media_type }

/-- Route of `is_merged` (lines 60-65): `repos/{owner}/{repo}/pulls/{pr}/merge`. -/
def PullRequestHandler.is_merged_route (s : PullRequestHandler) (pr : Nat) : String :=
  let owner := s.owner
  let repo := s.repo
  s!"repos/{owner}/{repo}/pulls/{pr}/merge"

/-- `PullRequestHandler::is_merged` (lines 59-72): raw GET on the merge route,
then `Ok(response.status() == 204)`. -/
def PullRequestHandler.is_merged (s : PullRequestHandler) (exec : Transport) (pr : Nat) :
    Except Error Bool :=
  match s.crab._get exec (s.crab.absolute_url (s.is_merged_route pr)) none with
  | .error e => .error e
  | .ok response => .ok (response.status == 204)

/-- Route of `update_branch` (lines 84-89):
`repos/{owner}/{repo}/pulls/{pr}/update-branch`. -/
def PullRequestHandler.update_branch_route (s : PullRequestHandler) (pr : Nat) : String :=
  let owner := s.owner
  let repo := s.repo
  s!"repos/{owner}/{repo}/pulls/{pr}/update-branch"

/-- `PullRequestHandler::update_branch` (lines 83-96): raw PUT on the
update-branch route, then `Ok(response.status() == 202)`. -/
def PullRequestHandler.update_branch (s : PullRequestHandler) (exec : Transport) (pr : Nat) :
    Except Error Bool :=
  match s.crab._put exec (s.crab.absolute_url (s.update_branch_route pr)) none with
  | .error e => .error e
  | .ok response => .ok (response.status == 202)

/-- The request assembled by `http_get` (lines 373-384): GET on the resolved
route, query parameters attached only if present, the handler's ACCEPT header
attached only if a media type is configured. -/
def PullRequestHandler.http_get_request (s : PullRequestHandler) (route : String)
    (parameters : Option String) : Request :=
  let request := Request.new .GET (s.crab.absolute_url route)
  let request :=
    match parameters with
    | some p => request.withQuery p
    | none => request
  match s.media_type with
  | some media_type => request.withHeader ACCEPT (format_media_type media_type.to_string)
  | none => request

/-- `PullRequestHandler::http_get` (lines 363-387): build the request, execute,
classify errors, then decode. -/
def PullRequestHandler.http_get {R : Type} (s : PullRequestHandler) (exec : Transport)
    (dec : Decoder R) (route : String) (parameters : Option String) : Except Error R :=
  match exec (s.http_get_request route parameters) with
  | .error e => .error e
  | .ok response =>
    match map_github_error response with
    | .error e => .error e
    | .ok response => from_response dec response

/-- `PullRequestHandler::build_request` (lines 428-448): JSON body attached
only if present, the handler's ACCEPT header attached only if a media type is
configured at call time. -/
def PullRequestHandler.build_request (s : PullRequestHandler) (request : Request)
    (body : Option Json) : Request :=
  let request :=
    match body with
    | some b => request.withJson b
    | none => request
  match s.media_type with
  | some media_type => request.withHeader ACCEPT (format_media_type media_type.to_string)
  | none => request

/-- `PullRequestHandler::http_post` (lines 389-400). -/
def PullRequestHandler.http_post {R : Type} (s : PullRequestHandler) (exec : Transport)
    (dec : Decoder R) (route : String) (body : Option Json) : Except Error R :=
  let request := Request.new .POST (s.crab.absolute_url route)
  let request := s.build_request request body
  match exec request with
  | .error e => .error e
  | .ok response =>
    match map_github_error response with
    | .error e => .error e
    | .ok response => from_response dec response

/-- `PullRequestHandler::http_put` (lines 402-413). -/
def PullRequestHandler.http_put {R : Type} (s : PullRequestHandler) (exec : Transport)
    (dec : Decoder R) (route : String) (body : Option Json) : Except Error R :=
  let request := Request.new .PUT (s.crab.absolute_url route)
  let request := s.build_request request body
  match exec request with
  | .error e => .error e
  | .ok response =>
    match map_github_error response with
    | .error e => .error e
    | .ok response => from_response dec response

/-- `PullRequestHandler::http_patch` (lines 415-426). -/
def PullRequestHandler.http_patch {R : Type} (s : PullRequestHandler) (exec : Transport)
    (dec : Decoder R) (route : String) (body : Option Json) : Except Error R :=
  let request := Request.new .PATCH (s.crab.absolute_url route)
  let request := s.build_request request body
  match exec request with
  | .error e => .error e
  | .ok response =>
    match map_github_error response with
    | .error e => .error e
    | .ok response => from_response dec response

/-- Route of `get` (lines 106-111): `repos/{owner}/{repo}/pulls/{pr}`. -/
def PullRequestHandler.get_route (s : PullRequestHandler) (pr : Nat) : String :=
  let owner := s.owner
  let repo := s.repo
  s!"repos/{owner}/{repo}/pulls/{pr}"

/-- `PullRequestHandler::get` (lines 105-114): `http_get` on the pull route
with no query parameters. -/
def PullRequestHandler.get {R : Type} (s : PullRequestHandler) (exec : Transport)
    (dec : Decoder R) (pr : Nat) : Except Error R :=
  s.http_get exec dec (s.get_route pr) none

/-- The request assembled by `get_diff` (lines 131-135): GET on the pull route
with the forced `diff` ACCEPT header, bypassing the handler's media type. -/
def PullRequestHandler.get_diff_request (s : PullRequestHandler) (pr : Nat) : Request :=
  (Request.new .GET (s.crab.absolute_url (s.get_route pr))).withHeader
    ACCEPT (format_media_type "diff")

/-- `PullRequestHandler::get_diff` (lines 123-140): execute the forced-diff
request, classify errors, and return the raw response text. -/
def PullRequestHandler.get_diff (s : PullRequestHandler) (exec : Transport) (pr : Nat) :
    Except Error String :=
  match exec (s.get_diff_request pr) with
  | .error e => .error e
  | .ok response =>
    match map_github_error response with
    | .error e => .error e
    | .ok response => .ok response.body

/-- The request assembled by `get_patch` (lines 157-161): GET on the pull route
with the forced `patch` ACCEPT header, bypassing the handler's media type. -/
def PullRequestHandler.get_patch_request (s : PullRequestHandler) (pr : Nat) : Request :=
  (Request.new .GET (s.crab.absolute_url (s.get_route pr))).withHeader
    ACCEPT (format_media_type "patch")

/-- `PullRequestHandler::get_patch` (lines 149-166): execute the forced-patch
request, classify errors, and return the raw response text. -/
def PullRequestHandler.get_patch (s : PullRequestHandler) (exec : Transport) (pr : Nat) :
    Except Error String :=
  match exec (s.get_patch_request pr) with
  | .error e => .error e
  | .ok response =>
    match map_github_error response with
    | .error e => .error e
    | .ok response => .ok response.body

/-- Route of `list_reviews` (lines 255-260):
`repos/{owner}/{repo}/pulls/{pr}/reviews`. -/
def PullRequestHandler.list_reviews_route (s : PullRequestHandler) (pr : Nat) : String :=
  let owner := s.owner
  let repo := s.repo
  s!"repos/{owner}/{repo}/pulls/{pr}/reviews"

/-- `PullRequestHandler::list_reviews` (lines 254-263). -/
def PullRequestHandler.list_reviews {R : Type} (s : PullRequestHandler) (exec : Transport)
    (dec : Decoder R) (pr : Nat) : Except Error R :=
  s.http_get exec dec (s.list_reviews_route pr) none

/-- Route of `request_reviews` (lines 280-285):
`repos/{owner}/{repo}/pulls/{pr}/requested_reviewers`. -/
def PullRequestHandler.request_reviews_route (s : PullRequestHandler) (pr : Nat) : String :=
  let owner := s.owner
  let repo := s.repo
  s!"repos/{owner}/{repo}/pulls/{pr}/requested_reviewers"

/-- The JSON-object body of `request_reviews` (lines 287-289): an empty map,
then `reviewers` and `team_reviewers` inserted as string arrays. -/
def PullRequestHandler.request_reviews_map (reviewers team_reviewers : List String) : JsonMap :=
  let map : JsonMap := []
  let map := map.insert "reviewers" (Json.arr (reviewers.map Json.str))
  map.insert "team_reviewers" (Json.arr (team_reviewers.map Json.str))

/-- `PullRequestHandler::request_reviews` (lines 274-292): POST the two-array
JSON object through the client's generic `post`. -/
def PullRequestHandler.request_reviews {R : Type} (s : PullRequestHandler) (exec : Transport)
    (dec : Decoder R) (pr : Nat) (reviewers team_reviewers : List String) : Except Error R :=
  s.crab.post exec dec (s.request_reviews_route pr)
    (some (Json.obj (PullRequestHandler.request_reviews_map reviewers team_reviewers)))

/-- Route of `list_files` (lines 301-306):
`repos/{owner}/{repo}/pulls/{pr}/files`. -/
def PullRequestHandler.list_files_route (s : PullRequestHandler) (pr : Nat) : String :=
  let owner := s.owner
  let repo := s.repo
  s!"repos/{owner}/{repo}/pulls/{pr}/files"

/-- `PullRequestHandler::list_files` (lines 300-309). -/
def PullRequestHandler.list_files {R : Type} (s : PullRequestHandler) (exec : Transport)
    (dec : Decoder R) (pr : Nat) : Except Error R :=
  s.http_get exec dec (s.list_files_route pr) none

/-- C1: counterexample — the claim says both boolean-flag operations map
status 204 to `Ok(true)` and any status other than the positive one and its
negative companion to a structured error. On the code, `update_branch` maps a
delivered 204 to `Ok(false)` (its positive status is 202), and `is_merged`
maps a delivered 500 to `Ok(false)` rather than a structured error. -/
theorem C1_boolean_status_counterexample :
    (PullRequestHandler.new ⟨"https://api.github.com/"⟩ "owner" "repo").update_branch
        (fun _ => .ok ⟨204, ""⟩) 101 = .ok false
    ∧ (PullRequestHandler.new ⟨"https://api.github.com/"⟩ "owner" "repo").is_merged
        (fun _ => .ok ⟨500, "server error"⟩) 101 = .ok false :=
  ⟨rfl, rfl⟩

/-- C1 (amended): `is_merged` yields `Ok(status == 204)` and `update_branch`
yields `Ok(status == 202)` for every delivered response — so every delivered
non-matching status (including 404 and server errors) yields `Ok(false)`
without a structured error and without invoking the JSON decoder, and only a
transport-level failure propagates as an error. -/
theorem C1_boolean_status_amended (s : PullRequestHandler) (pr : Nat)
    (response : Response) (e : Error) :
    s.is_merged (fun _ => .ok response) pr = .ok (response.status == 204)
    ∧ s.update_branch (fun _ => .ok response) pr = .ok (response.status == 202)
    ∧ s.is_merged (fun _ => .error e) pr = .error e
    ∧ s.update_branch (fun _ => .error e) pr = .error e :=
  ⟨rfl, rfl, rfl, rfl⟩

/-- C2: for `http_get`, `http_post`, `http_put` and `http_patch`, a delivered
non-2xx response becomes the structured remote-service error, independently of
the decoder (the `else` branch does not mention `dec`), while a 2xx response is
handed to `from_response`; and a 2xx response whose body fails to decode yields
a decode failure, not a default value. -/
theorem C2_classify_before_decode {R : Type} (s : PullRequestHandler)
    (route : String) (params : Option String) (body : Option Json)
    (response : Response) (dec : Decoder R) :
    s.http_get (fun _ => .ok response) dec route params =
      (if 200 ≤ response.status ∧ response.status ≤ 299 then from_response dec response
       else .error (.github response.status response.body))
    ∧ s.http_post (fun _ => .ok response) dec route body =
      (if 200 ≤ response.status ∧ response.status ≤ 299 then from_response dec response
       else .error (.github response.status response.body))
    ∧ s.http_put (fun _ => .ok response) dec route body =
      (if 200 ≤ response.status ∧ response.status ≤ 299 then from_response dec response
       else .error (.github response.status response.body))
    ∧ s.http_patch (fun _ => .ok response) dec route body =
      (if 200 ≤ response.status ∧ response.status ≤ 299 then from_response dec response
       else .error (.github response.status response.body))
    ∧ s.http_get (fun _ => .ok response) (fun _ => (none : Option R)) route params =
      (if 200 ≤ response.status ∧ response.status ≤ 299 then
         .error (.jsonDecode response.body)
       else .error (.github response.status response.body)) := by
  by_cases h : 200 ≤ response.status ∧ response.status ≤ 299 <;>
    refine ⟨?_, ?_, ?_, ?_, ?_⟩ <;>
      simp [PullRequestHandler.http_get, PullRequestHandler.http_post,
        PullRequestHandler.http_put, PullRequestHandler.http_patch,
        map_github_error, from_response, h]

/-- C3: the requests assembled by `http_get` and by `build_request` carry the
content-negotiation ACCEPT header exactly when the handler's `media_type` is
`some variant` at build time, with the deterministic format string of that
variant as value; with no variant configured the header list stays empty. -/
theorem C3_accept_iff_media_type (crab : Octocrab) (owner repo route url : String)
    (params : Option String) (mt : Option MediaType) (mth : Method) (body : Option Json) :
    ((PullRequestHandler.mk crab owner repo mt).http_get_request route params).headers =
      (match mt with
       | some m => [(ACCEPT, format_media_type m.to_string)]
       | none => [])
    ∧ ((PullRequestHandler.mk crab owner repo mt).build_request (Request.new mth url) body).headers =
      (match mt with
       | some m => [(ACCEPT, format_media_type m.to_string)]
       | none => []) := by
  cases mt <;> cases params <;> cases body <;> exact ⟨rfl, rfl⟩

/-- C4: `get_diff` and `get_patch` always attach the forced `diff` or `patch`
ACCEPT header, whatever the handler's configured media type (the handler is
universally quantified), and on a delivered 2xx response they return the raw
response text; a delivered non-2xx response becomes the structured error. -/
theorem C4_forced_diff_patch_headers (s : PullRequestHandler) (pr : Nat)
    (response : Response) :
    (s.get_diff_request pr).headers = [(ACCEPT, format_media_type "diff")]
    ∧ (s.get_patch_request pr).headers = [(ACCEPT, format_media_type "patch")]
    ∧ s.get_diff (fun _ => .ok response) pr =
      (if 200 ≤ response.status ∧ response.status ≤ 299 then .ok response.body
       else .error (.github response.status response.body))
    ∧ s.get_patch (fun _ => .ok response) pr =
      (if 200 ≤ response.status ∧ response.status ≤ 299 then .ok response.body
       else .error (.github response.status response.body)) := by
  by_cases h : 200 ≤ response.status ∧ response.status ≤ 299 <;>
    refine ⟨rfl, rfl, ?_, ?_⟩ <;>
      simp [PullRequestHandler.get_diff, PullRequestHandler.get_patch,
        map_github_error, h]

/-- C5: `build_request` reads the handler's `media_type` at call time — after
setting a variant, a build of any request value (even one assembled earlier)
appends exactly the new variant's ACCEPT header — and setting the variant
never changes the method, URL, query parameters or JSON body of a built
request. -/
theorem C5_media_type_read_at_call_time (s : PullRequestHandler) (m : MediaType)
    (request : Request) (body : Option Json) (route : String) (params : Option String) :
    ((s.mediaType m).build_request request body).headers
      = request.headers ++ [(ACCEPT, format_media_type m.to_string)]
    ∧ ((s.mediaType m).build_request request body).method = request.method
    ∧ ((s.mediaType m).build_request request body).url = request.url
    ∧ ((s.mediaType m).build_request request body).query = (s.build_request request body).query
    ∧ ((s.mediaType m).build_request request body).body = (s.build_request request body).body
    ∧ ((s.mediaType m).http_get_request route params).query
      = (s.http_get_request route params).query := by
  obtain ⟨crab, owner, repo, mt⟩ := s
  cases mt <;> cases body <;> cases params <;>
    exact ⟨rfl, rfl, rfl, rfl, rfl, rfl⟩

/-- C6: for every handler state and pull number, the six operations' routes
are exactly the documented `repos/{owner}/{repo}/pulls/{pr}` shapes with no
extra segments. -/
theorem C6_route_shapes (s : PullRequestHandler) (pr : Nat) :
    s.get_route pr = "repos/" ++ s.owner ++ "/" ++ s.repo ++ "/pulls/" ++ toString pr
    ∧ s.is_merged_route pr
      = "repos/" ++ s.owner ++ "/" ++ s.repo ++ "/pulls/" ++ toString pr ++ "/merge"
    ∧ s.update_branch_route pr
      = "repos/" ++ s.owner ++ "/" ++ s.repo ++ "/pulls/" ++ toString pr ++ "/update-branch"
    ∧ s.list_reviews_route pr
      = "repos/" ++ s.owner ++ "/" ++ s.repo ++ "/pulls/" ++ toString pr ++ "/reviews"
    ∧ s.request_reviews_route pr
      = "repos/" ++ s.owner ++ "/" ++ s.repo ++ "/pulls/" ++ toString pr ++ "/requested_reviewers"
    ∧ s.list_files_route pr
      = "repos/" ++ s.owner ++ "/" ++ s.repo ++ "/pulls/" ++ toString pr ++ "/files" := by
  refine ⟨?_, rfl, rfl, rfl, rfl, rfl⟩
  rw [← String.append_empty ("repos/" ++ s.owner ++ "/" ++ s.repo ++ "/pulls/" ++ toString pr)]
  exact rfl

/-- C7: the JSON body posted by `request_reviews` is exactly the map built by
two inserts, and that map contains both the `reviewers` key and the
`team_reviewers` key, each bound to the corresponding string array, for every
pair of caller-supplied lists, empty lists included. -/
theorem C7_request_reviews_body_keys (s : PullRequestHandler) (pr : Nat)
    (reviewers team_reviewers : List String) :
    (s.crab.post_request (s.crab.absolute_url (s.request_reviews_route pr))
        (some (Json.obj (PullRequestHandler.request_reviews_map reviewers team_reviewers)))).body
      = some (Json.obj (PullRequestHandler.request_reviews_map reviewers team_reviewers))
    ∧ List.lookup "reviewers" (PullRequestHandler.request_reviews_map reviewers team_reviewers)
      = some (Json.arr (reviewers.map Json.str))
    ∧ List.lookup "team_reviewers" (PullRequestHandler.request_reviews_map reviewers team_reviewers)
      = some (Json.arr (team_reviewers.map Json.str)) :=
  ⟨rfl, rfl, rfl⟩

/-- C8: the request assembled by `http_get` carries query parameters exactly
when the `parameters` argument is `some`, and `build_request` attaches a JSON
body exactly when the `body` argument is `some`; a `none` argument leaves the
field absent, not empty. -/
theorem C8_optional_query_and_body (s : PullRequestHandler) (route p url : String)
    (mth : Method) (b : Json) :
    (s.http_get_request route none).query = none
    ∧ (s.http_get_request route (some p)).query = some p
    ∧ (s.build_request (Request.new mth url) none).body = none
    ∧ (s.build_request (Request.new mth url) (some b)).body = some b := by
  obtain ⟨crab, owner, repo, mt⟩ := s
  cases mt <;> exact ⟨rfl, rfl, rfl, rfl⟩

/-- C9: the fluent `media_type` setter sets the variant field to
`some variant` and leaves the owner, repo and client-context fields of the
handler unchanged (returning the handler value for chaining). -/
theorem C9_media_type_setter_frame (s : PullRequestHandler) (m : MediaType) :
    (s.mediaType m).media_type = some m
    ∧ (s.mediaType m).owner = s.owner
    ∧ (s.mediaType m).repo = s.repo
    ∧ (s.mediaType m).crab = s.crab :=
  ⟨rfl, rfl, rfl, rfl⟩

/-- C10: the requests assembled for `is_merged`, `update_branch` and
`request_reviews` (which go through the client's raw `_get`/`_put`/generic
`post`, not through `build_request` or `http_get`) carry no ACCEPT header for
any handler state, configured media type included. -/
theorem C10_direct_ops_bypass_accept (s : PullRequestHandler) (pr : Nat)
    (reviewers team_reviewers : List String) :
    ((s.crab.get_request (s.crab.absolute_url (s.is_merged_route pr)) none).headers).filter
        (fun hdr => hdr.1 == ACCEPT) = []
    ∧ ((s.crab.put_request (s.crab.absolute_url (s.update_branch_route pr)) none).headers).filter
        (fun hdr => hdr.1 == ACCEPT) = []
    ∧ ((s.crab.post_request (s.crab.absolute_url (s.request_reviews_route pr))
          (some (Json.obj (PullRequestHandler.request_reviews_map reviewers
            team_reviewers)))).headers).filter
        (fun hdr => hdr.1 == ACCEPT) = [] :=
  ⟨rfl, rfl, rfl⟩
